import Mathlib

/-!
Verification development for the Excel workbook migration scripts
(`script.py`, `test_excel_formatting.py`).

The development shallowly embeds the pure computational core of the
repository:

* the formula reference rewriter `fix_external_references` with its three
  sequential `re.sub` passes (standard, indexed and loose dialects),
  including a faithful backtracking regular-expression engine mirroring
  Python `re` semantics (leftmost match, greedy quantifiers with
  backtracking, numbered capture groups, function replacements that can
  raise on a missing group);
* the filename fuzzy matcher (case-insensitive, spaces and parentheses
  stripped, substring containment in either direction);
* the stored-text type coercion performed during workbook reconstruction
  (bool / int / float / str precedence, with a model of Python's
  `str.isdigit` and `float()` parsing over ASCII input);
* the formatting codec of `test_excel_formatting.py`
  (`ensure_argb_format`, `extract_cell_formatting`, `apply_formatting`)
  and the font-color normalization of `script.py` (`apply_formatting`
  and `fix_font_colors`).

Python strings are modelled as Lean `String`/`List Char` (the repository
only processes ASCII formula and color text).
-/

namespace ExcelDB

/-- The ASCII apostrophe (quote) character used by Excel sheet references. -/
def quoteC : Char := Char.ofNat 39

/-- Python `str.lower` restricted to ASCII, applied characterwise. -/
def pyLower (l : List Char) : List Char := l.map Char.toLower

/-- True iff `c` is an ASCII decimal digit. -/
def isAsciiDigit (c : Char) : Bool := decide ('0' ≤ c) && decide (c ≤ '9')

/-- Executable substring test: `isSubstr p s` is true iff the character list
`p` occurs contiguously inside `s` (Python's `p in s`). -/
def isSubstr (p : List Char) : List Char → Bool
  | [] => p.isEmpty
  | c :: rest => p.isPrefixOf (c :: rest) || isSubstr p rest

/-- The cleaning applied by the fuzzy filename matcher in
`replace_standard_match` / `replace_sheet_reference`:
`name.lower().replace(" ", "").replace("(", "").replace(")", "")`. -/
def cleanChars (l : List Char) : List Char :=
  (pyLower l).filter (fun c => !(c = ' ' || c = '(' || c = ')'))

/-- The fuzzy-match condition of `replace_standard_match`: after cleaning,
either side is a substring of the other. -/
def fuzzyCond (key filename : List Char) : Bool :=
  isSubstr (cleanChars filename) (cleanChars key) ||
    isSubstr (cleanChars key) (cleanChars filename)

/-- First catalog entry whose key fuzzy-matches `filename` (Python dict
iteration order is insertion order, so the catalog is a list). -/
def fuzzyLookup (catalog : List (String × String)) (filename : List Char) :
    Option String :=
  match catalog with
  | [] => none
  | (k, v) :: rest =>
    if fuzzyCond k.data filename then some v else fuzzyLookup rest filename

/-! ### A backtracking regular-expression engine mirroring Python `re`

Only the constructs used by the three patterns of
`fix_external_references` are supported: literals, character classes
(with ranges and negation), greedy `*` / `+` / `?`, concatenation and
numbered groups.  Matching is leftmost, quantifiers are greedy with full
backtracking, exactly as in CPython's `re` for these patterns. -/

/-- Regular expression abstract syntax. `cls neg chars ranges` is a
character class; `neg = true` negates it. -/
inductive RE where
  | eps : RE
  | lit : Char → RE
  | cls : Bool → List Char → List (Char × Char) → RE
  | grp : Nat → RE → RE
  | seq : RE → RE → RE
  | star : RE → RE
  | opt : RE → RE

/-- Membership in a list of character ranges. -/
def inRanges (c : Char) : List (Char × Char) → Bool
  | [] => false
  | (a, b) :: rs => (decide (a ≤ c) && decide (c ≤ b)) || inRanges c rs

/-- Character-class membership. -/
def clsMatch (neg : Bool) (cs : List Char) (rs : List (Char × Char))
    (c : Char) : Bool :=
  let m := cs.contains c || inRanges c rs
  if neg then !m else m

/-- Capture environment: group number paired with the captured characters. -/
abbrev Caps := List (Nat × List Char)

/-- Fueled CPS backtracking matcher.  `reMatch fuel re s caps k` tries to
match `re` at the start of `s`; on success of a branch it calls the
continuation `k` with the remaining input and updated captures, and
backtracks into alternatives (shorter greedy repetitions, skipped
optionals) when `k` fails.  `star` is greedy: it first tries one more
repetition (the body of every `star` in the three patterns consumes at
least one character, and the width guard keeps the recursion on a
strictly shorter suffix). -/
def reMatch : Nat → RE → List Char → Caps →
    (List Char → Caps → Option (List Char × Caps)) →
    Option (List Char × Caps)
  | 0, _, _, _, _ => none
  | _ + 1, .eps, s, caps, k => k s caps
  | _ + 1, .lit c, s, caps, k =>
    match s with
    | [] => none
    | c2 :: rest => if c2 = c then k rest caps else none
  | _ + 1, .cls neg cs rs, s, caps, k =>
    match s with
    | [] => none
    | c2 :: rest => if clsMatch neg cs rs c2 then k rest caps else none
  | fuel + 1, .grp n r, s, caps, k =>
    reMatch fuel r s caps (fun rest caps2 =>
      k rest ((n, s.take (s.length - rest.length)) :: caps2))
  | fuel + 1, .seq a b, s, caps, k =>
    reMatch fuel a s caps (fun rest caps2 => reMatch fuel b rest caps2 k)
  | fuel + 1, .star r, s, caps, k =>
    match reMatch fuel r s caps (fun rest caps2 =>
        if rest.length < s.length then reMatch fuel (.star r) rest caps2 k
        else none) with
    | some res => some res
    | none => k s caps
  | fuel + 1, .opt r, s, caps, k =>
    match reMatch fuel r s caps k with
    | some res => some res
    | none => k s caps

/-- Greedy `+`, as in Python: one occurrence followed by a greedy `*`. -/
def REplus (r : RE) : RE := .seq r (.star r)

/-- Right-nested sequence of a list of regular expressions. -/
def REseq : List RE → RE
  | [] => .eps
  | [r] => r
  | r :: rs => .seq r (REseq rs)

/-- Fuel bound for matching at one position: generous enough that it is
never exhausted on inputs of the given length for the three fixed
patterns (the call depth is bounded by the pattern size plus the number
of greedy repetitions, each of which consumes a character). -/
def reFuel (s : List Char) : Nat := (s.length + 2) * 64

/-- Try to match `re` at the start of `s`; returns the remaining suffix
and the captures of the successful match. -/
def tryMatch (re : RE) (s : List Char) : Option (List Char × Caps) :=
  reMatch (reFuel s) re s [] (fun rest caps => some (rest, caps))

/-- Errors a replacement function can raise: `noSuchGroup` models Python's
`IndexError: no such group` from `match.group(n)` on a missing group. -/
inductive SubErr where
  | noSuchGroup : SubErr
  | fuel : SubErr
deriving DecidableEq, Repr

/-- `match.group(n)`: look the group up in the capture environment, raising
`noSuchGroup` when the pattern has no such group. -/
def getGroup (caps : Caps) (n : Nat) : Except SubErr (List Char) :=
  match caps.lookup n with
  | some g => .ok g
  | none => .error .noSuchGroup

/-- One scan step of `re.sub`: at each position try the pattern; on a match
substitute the replacement (which may raise) and continue after the
match, otherwise copy one character and advance.  A zero-width match
substitutes and then copies one character, as CPython does (the three
patterns can never match the empty string). -/
def reSubAux (re : RE) (repl : List Char → Caps → Except SubErr (List Char)) :
    Nat → List Char → Except SubErr (List Char)
  | 0, _ => .error .fuel
  | fuel + 1, s =>
    match tryMatch re s with
    | some (rest, caps) =>
      match repl (s.take (s.length - rest.length)) caps with
      | .error e => .error e
      | .ok r =>
        if rest.length < s.length then
          match reSubAux re repl fuel rest with
          | .error e => .error e
          | .ok tail => .ok (r ++ tail)
        else
          match s with
          | [] => .ok r
          | c :: cs =>
            match reSubAux re repl fuel cs with
            | .error e => .error e
            | .ok tail => .ok (r ++ c :: tail)
    | none =>
      match s with
      | [] => .ok []
      | c :: cs =>
        match reSubAux re repl fuel cs with
        | .error e => .error e
        | .ok tail => .ok (c :: tail)

/-- Python `re.sub(pattern, repl, s)` with a function replacement. -/
def reSub (re : RE) (repl : List Char → Caps → Except SubErr (List Char))
    (s : List Char) : Except SubErr (List Char) :=
  reSubAux re repl (s.length + 1) s

/-! ### The three reference patterns of `fix_external_references` -/

/-- Python whitespace class characters (ASCII part of `\s`). -/
def wsChars : List Char := [' ', '\t', '\n', '\r', '\x0B', '\x0C']

/-- The class `[\w\s-]` (ASCII): word characters, whitespace and hyphen. -/
def wordSpaceHyphen : RE :=
  .cls false ('_' :: '-' :: wsChars) [('a', 'z'), ('A', 'Z'), ('0', '9')]

/-- The class `[A-Z0-9:$]` of range text. -/
def rangeCls : RE := .cls false [':', '$'] [('A', 'Z'), ('0', '9')]

/-- `standard_pattern = '?([^']*\[([^]]+)\]([^!']*))'?!([A-Z0-9:$]+)`:
quoted path with bracketed filename, sheet name and range. -/
def standard_pattern : RE :=
  REseq [.opt (.lit quoteC),
         .grp 1 (REseq [.star (.cls true [quoteC] []),
                        .lit '[',
                        .grp 2 (REplus (.cls true [']'] [])),
                        .lit ']',
                        .grp 3 (.star (.cls true ['!', quoteC] []))]),
         .opt (.lit quoteC),
         .lit '!',
         .grp 4 (REplus rangeCls)]

/-- `indexed_pattern = \[(\d+)\]([^!]+)!([A-Z0-9:$]+)`: numeric workbook
index references such as `[1]Deposits!L:L`. -/
def indexed_pattern : RE :=
  REseq [.lit '[',
         .grp 1 (REplus (.cls false [] [('0', '9')])),
         .lit ']',
         .grp 2 (REplus (.cls true ['!'] [])),
         .lit '!',
         .grp 3 (REplus rangeCls)]

/-- `sheet_reference_pattern = ([\w\s-]+\.xlsx)([\w\s-]+)`: loose filename
followed by trailing text.  Note the pattern has exactly two groups. -/
def sheet_reference_pattern : RE :=
  REseq [.grp 1 (REseq [REplus wordSpaceHyphen,
                        .lit '.', .lit 'x', .lit 'l', .lit 's', .lit 'x']),
         .grp 2 (REplus wordSpaceHyphen)]

/-! ### The replacement functions and the rewriter -/

/-- Builds `'<base>[<filename>]<sheet>'!<range>`, the rewritten standard
dialect reference. -/
def standardForm (base filename : String) (sheet cellRef : List Char) :
    List Char :=
  quoteC :: (base.data ++ '[' :: (filename.data ++ ']' ::
    (sheet ++ quoteC :: '!' :: cellRef)))

/-- `replace_standard_match` of `script.py`: fuzzy-match the bracketed
filename (group 2) against the alias catalog; on a match rewrite to
`'<base>[<canonical>]<sheet>'!<range>`, otherwise return the whole match
unchanged. -/
def replace_standard_match (base : String) (catalog : List (String × String))
    (m : List Char) (caps : Caps) : Except SubErr (List Char) := do
  let _fullPath ← getGroup caps 1
  let filename ← getGroup caps 2
  let sheet ← getGroup caps 3
  let cellRef ← getGroup caps 4
  match fuzzyLookup catalog filename with
  | some target => .ok (standardForm base target sheet cellRef)
  | none => .ok m

/-- The static numeric index map hard-coded inside `replace_indexed_match`. -/
def index_to_file : List (String × String) :=
  [("1", "Deposits Data Lite.xlsx"),
   ("2", "Loans Data Lite.xlsx"),
   ("3", "Form X Report  Main Lite.xlsx")]

/-- `replace_indexed_match` of `script.py`: map the bracketed digit through
the static index map; when the index is known and a base path is set,
rewrite to the standard dialect form, otherwise return the whole match
unchanged. -/
def replace_indexed_match (base : String) (m : List Char) (caps : Caps) :
    Except SubErr (List Char) := do
  let idx ← getGroup caps 1
  let sheetName ← getGroup caps 2
  let cellRef ← getGroup caps 3
  match index_to_file.lookup (String.mk idx) with
  | some filename =>
    if base ≠ "" then .ok (standardForm base filename sheetName cellRef)
    else .ok m
  | none => .ok m

/-- `replace_sheet_reference` of `script.py`.  The source reads
`sheet = match.group(3)` although `sheet_reference_pattern` has only two
groups, so the access raises before the fuzzy match is attempted. -/
def replace_sheet_reference (base : String) (catalog : List (String × String))
    (m : List Char) (caps : Caps) : Except SubErr (List Char) := do
  let file ← getGroup caps 1
  let sheet ← getGroup caps 3
  match fuzzyLookup catalog file with
  | some target =>
    if base ≠ "" then .ok (base.data ++ target.data ++ sheet) else .ok m
  | none => .ok m

/-- `fix_external_references` of `script.py` on a non-empty string input:
three `re.sub` passes applied in sequence, each to the previous pass's
output.  The global `new_base_path` is passed as the `base` argument.  An
empty string is falsy in Python and is returned unchanged by the
`if not formula` guard. -/
def fix_external_references (base : String) (catalog : List (String × String))
    (formula : String) : Except SubErr String :=
  if formula = "" then .ok formula
  else do
    let f1 ← reSub standard_pattern (replace_standard_match base catalog)
      formula.data
    let f2 ← reSub indexed_pattern (replace_indexed_match base) f1
    let f3 ← reSub sheet_reference_pattern (replace_sheet_reference base catalog)
      f2
    .ok (String.mk f3)

/-- A Python value reaching `fix_external_references`: `None`, a string, or
some other non-string value.  Non-strings fail the `isinstance` guard and
are returned unchanged. -/
inductive PyValue where
  | pyNone : PyValue
  | pyStr : String → PyValue
  | pyOther : PyValue
deriving DecidableEq, Repr

/-- `fix_external_references` on an arbitrary value: the guard
`if not formula or not isinstance(formula, str): return formula` returns
`None`, non-strings and the empty string unchanged. -/
def fix_external_references_val (base : String)
    (catalog : List (String × String)) : PyValue → Except SubErr PyValue
  | .pyStr s =>
    if s = "" then .ok (.pyStr s)
    else (fix_external_references base catalog s).map .pyStr
  | v => .ok v

/-! ### Stored-text type coercion during reconstruction (`recreate_workbooks`)

Models the non-formula branch of `recreate_workbooks`:
case-insensitive `"true"`/`"false"` become booleans, then `value.isdigit()`
strings become integers, then `float(value)`-parseable strings become
floats, and everything else stays a string.  `str.isdigit` and `float`
are modelled over ASCII input (the repository stores ASCII cell text). -/

/-- Python `str.isdigit` over ASCII: non-empty and all decimal digits. -/
def pyIsDigit (s : String) : Bool :=
  !s.data.isEmpty && s.data.all isAsciiDigit

/-- Numeric value of an ASCII digit run (`int(value)` on an all-digit
string). -/
def digitsVal (l : List Char) : Nat :=
  l.foldl (fun a c => a * 10 + (c.toNat - 48)) 0

/-- A Python float: finite value (exact rational of the decimal literal),
signed infinity, or NaN. -/
inductive PyFloat where
  | finite : ℚ → PyFloat
  | inf : Bool → PyFloat
  | nan : PyFloat
deriving DecidableEq

/-- A digit run as accepted inside a Python float literal: digits with
single underscores between digits.  Returns the digits read and the
unconsumed rest; stops (leaving the underscore unconsumed, which makes
the whole literal invalid) when an underscore is not followed by a
digit. -/
def parseDigitsAux : List Char → List Char → List Char × List Char
  | acc, [] => (acc, [])
  | acc, c :: r =>
    if isAsciiDigit c then parseDigitsAux (acc ++ [c]) r
    else if c = '_' then
      match r with
      | d :: r2 =>
        if isAsciiDigit d then parseDigitsAux (acc ++ [d]) r2 else (acc, c :: r)
      | [] => (acc, c :: r)
    else (acc, c :: r)

/-- Parse a digit run (must start with a digit). -/
def parseDigits : List Char → Option (List Char × List Char)
  | c :: rest =>
    if isAsciiDigit c then some (parseDigitsAux [c] rest) else none
  | [] => none

/-- The significand of a float literal: `digits [. [digits]]` or
`. digits`.  Returns the mantissa digits' value together with the number
of fractional digits, and the unconsumed rest. -/
def parseSignificand (l : List Char) : Option ((Nat × Nat) × List Char) :=
  match parseDigits l with
  | some (ip, rest) =>
    match rest with
    | '.' :: rest2 =>
      match parseDigits rest2 with
      | some (fp, rest3) => some ((digitsVal (ip ++ fp), fp.length), rest3)
      | none => some ((digitsVal ip, 0), rest2)
    | _ => some ((digitsVal ip, 0), rest)
  | none =>
    match l with
    | '.' :: rest2 =>
      match parseDigits rest2 with
      | some (fp, rest3) => some ((digitsVal fp, fp.length), rest3)
      | none => none
    | _ => none

/-- The exponent of a float literal: `(e|E) [sign] digits`. -/
def parseExponent (l : List Char) : Option (Int × List Char) :=
  match l with
  | c :: rest =>
    if c = 'e' || c = 'E' then
      match rest with
      | '+' :: r =>
        match parseDigits r with
        | some (ds, rest3) => some ((digitsVal ds : Int), rest3)
        | none => none
      | '-' :: r =>
        match parseDigits r with
        | some (ds, rest3) => some (-(digitsVal ds : Int), rest3)
        | none => none
      | r =>
        match parseDigits r with
        | some (ds, rest3) => some ((digitsVal ds : Int), rest3)
        | none => none
    else none
  | [] => none

/-- The exact rational value of a decimal literal: sign, mantissa `n`,
`fracLen` fractional digits and a power-of-ten exponent `e`, i.e.
`± n * 10 ^ (e - fracLen)`. -/
def decimalRat (neg : Bool) (n : Nat) (fracLen : Nat) (e : Int) : ℚ :=
  let sgn : Int := if neg then -1 else 1
  let ex : Int := e - (fracLen : Int)
  if 0 ≤ ex then mkRat (sgn * (n : Int) * (10 : Int) ^ ex.toNat) 1
  else mkRat (sgn * (n : Int)) ((10 : Nat) ^ (-ex).toNat)

/-- ASCII whitespace stripped by Python around a float literal. -/
def isPyWs (c : Char) : Bool :=
  c = ' ' || c = '\t' || c = '\n' || c = '\r' || c = '\x0B' || c = '\x0C'

/-- Strip ASCII whitespace from both ends. -/
def stripWs (l : List Char) : List Char :=
  (l.dropWhile isPyWs).reverse.dropWhile isPyWs |>.reverse

/-- Python `float(s)` over ASCII input: `none` when `float` raises
`ValueError`. -/
def pyFloatOfString? (s : String) : Option PyFloat :=
  let t := stripWs s.data
  match t with
  | [] => none
  | _ =>
    let signed : Bool × List Char :=
      match t with
      | '+' :: r => (false, r)
      | '-' :: r => (true, r)
      | r => (false, r)
    let neg := signed.1
    let t2 := signed.2
    let low := pyLower t2
    if low = ['i', 'n', 'f'] || low = "infinity".data then some (.inf neg)
    else if low = ['n', 'a', 'n'] then some .nan
    else
      match parseSignificand t2 with
      | none => none
      | some ((n, fl), rest) =>
        match parseExponent rest with
        | some (e, rest2) =>
          if rest2 = [] then some (.finite (decimalRat neg n fl e)) else none
        | none =>
          if rest = [] then some (.finite (decimalRat neg n fl 0)) else none

/-- A typed cell scalar after reconstruction coercion. -/
inductive CellScalar where
  | boolean : Bool → CellScalar
  | int : Int → CellScalar
  | float : PyFloat → CellScalar
  | str : String → CellScalar
deriving DecidableEq

/-- The non-formula coercion of `recreate_workbooks`: case-insensitive
`"true"`/`"false"` to boolean, else all-digit text to integer, else
`float`-parseable text to float, else the text itself. -/
def coerce_stored_value (value : String) : CellScalar :=
  let low := String.mk (pyLower value.data)
  if low = "true" then .boolean true
  else if low = "false" then .boolean false
  else if pyIsDigit value then .int (digitsVal value.data)
  else
    match pyFloatOfString? value with
    | some f => .float f
    | none => .str value

/-! ### The formatting model

Cells are modelled by the formatting attributes the repository reads and
writes: font (name, size, bold, italic, underline, color), fill (type,
start color), four border sides (style, color), alignment and number
format.  Colors are the `rgb` strings of the underlying library; a border
side is always present (possibly with no style), as in the library. -/

/-- Font attributes handled by the scripts. -/
structure FontProps where
  name : Option String
  size : Option ℚ
  bold : Option Bool
  italic : Option Bool
  underline : Option String
  color : Option String
deriving DecidableEq

/-- Fill attributes handled by the scripts. -/
structure FillProps where
  fill_type : Option String
  start_color : Option String
deriving DecidableEq

/-- One border side: style and color. -/
structure SideProps where
  style : Option String
  color : Option String
deriving DecidableEq

/-- The four border sides. -/
structure BorderProps where
  top : SideProps
  bottom : SideProps
  left : SideProps
  right : SideProps
deriving DecidableEq

/-- Alignment attributes handled by the scripts. -/
structure AlignProps where
  horizontal : Option String
  vertical : Option String
  wrap_text : Option Bool
deriving DecidableEq

/-- A cell: its value (`none` means empty) and its formatting. -/
structure Cell where
  value : Option String
  number_format : String
  font : FontProps
  fill : FillProps
  border : BorderProps
  alignment : AlignProps
deriving DecidableEq

/-- A `Side()` with no style and no color (the no-border default). -/
def defaultSide : SideProps := { style := none, color := none }

/-- A freshly created cell before any formatting is applied. -/
def freshCell : Cell :=
  { value := none
    number_format := "General"
    font := { name := none, size := none, bold := none, italic := none,
              underline := none, color := none }
    fill := { fill_type := none, start_color := none }
    border := { top := defaultSide, bottom := defaultSide,
                left := defaultSide, right := defaultSide }
    alignment := { horizontal := none, vertical := none, wrap_text := none } }

/-- True iff `c` is one of `0123456789ABCDEFabcdef`. -/
def isHexChar (c : Char) : Bool :=
  isAsciiDigit c || (decide ('A' ≤ c) && decide (c ≤ 'F')) ||
    (decide ('a' ≤ c) && decide (c ≤ 'f'))

/-- `ensure_argb_format` of `test_excel_formatting.py`: a falsy input gives
`None`; otherwise non-hex characters are stripped, a 6-digit result gets
an `FF` alpha prefix, an 8-digit result is returned as-is, and any other
length falls back to `FF000000`. -/
def ensure_argb_format (s : String) : Option String :=
  if s = "" then none
  else
    let hex := s.data.filter isHexChar
    if hex.length = 6 then some (String.mk ('F' :: 'F' :: hex))
    else if hex.length = 8 then some (String.mk hex)
    else some "FF000000"

/-- `extract_cell_formatting` of `test_excel_formatting.py`: copies the
attributes, passing every color through `ensure_argb_format` (an absent
color stays `None`).  The record has the same shape as a cell's
formatting, so it is returned as the formatting part of a `Cell`. -/
def extract_side (s : SideProps) : SideProps :=
  { style := s.style, color := s.color.bind ensure_argb_format }

/-- Formatting record produced by `extract_cell_formatting` (test file). -/
structure CellFmt where
  number_format : String
  font : FontProps
  fill : FillProps
  border : BorderProps
  alignment : AlignProps
deriving DecidableEq

/-- `extract_cell_formatting` of `test_excel_formatting.py`. -/
def extract_cell_formatting (c : Cell) : CellFmt :=
  { number_format := c.number_format
    font := { c.font with color := c.font.color.bind ensure_argb_format }
    fill := { fill_type := c.fill.fill_type
              start_color := c.fill.start_color.bind ensure_argb_format }
    border := { top := extract_side c.border.top
                bottom := extract_side c.border.bottom
                left := extract_side c.border.left
                right := extract_side c.border.right }
    alignment := c.alignment }

/-- One side in `apply_formatting` (test file): a truthy style gives
`Side(style, color)`, otherwise the default `Side()`. -/
def apply_side (s : SideProps) : SideProps :=
  match s.style with
  | some st => if st = "" then defaultSide else { style := some st, color := s.color }
  | none => defaultSide

/-- `apply_formatting` of `test_excel_formatting.py`: sets the number
format, replaces the font wholesale, sets the fill only when the fill
type is truthy and not `"none"` and a truthy start color exists, sets the
alignment, and rebuilds all four border sides. -/
def apply_formatting (fmt : CellFmt) (c : Cell) : Cell :=
  let c1 : Cell :=
    { c with
      number_format := fmt.number_format
      font := fmt.font
      alignment := fmt.alignment
      border := { top := apply_side fmt.border.top
                  bottom := apply_side fmt.border.bottom
                  left := apply_side fmt.border.left
                  right := apply_side fmt.border.right } }
  match fmt.fill.fill_type with
  | some t =>
    if t = "" || t = "none" then c1
    else
      match fmt.fill.start_color with
      | some sc =>
        if sc = "" then c1
        else { c1 with fill := { fill_type := some t, start_color := some sc } }
      | none => c1
  | none => c1

/-! ### Font color handling of `apply_formatting` in `script.py` -/

/-- A stored font color record `{type, value}` from the Phase 2 snapshot:
`rgb` with a string value (`none` models a non-string JSON value),
`theme`, or `indexed`. -/
inductive StoredColor where
  | rgb : Option String → StoredColor
  | theme : Int → StoredColor
  | indexed : Int → StoredColor
deriving DecidableEq

/-- Python `str.strip()` over ASCII whitespace. -/
def pyStrip (s : String) : String := String.mk (stripWs s.data)

/-- `s.replace("FF", "", 1)`: remove the first occurrence of `FF`. -/
def removeFirstFF : List Char → List Char
  | 'F' :: 'F' :: r => r
  | c :: r => c :: removeFirstFF r
  | [] => []

/-- The font color computed by `apply_formatting` in `script.py` from a
stored color record: an absent record leaves the color unset; an `rgb`
record is stripped and kept when its characters (after removing one `FF`)
are all hex, else replaced by `'000000'`; `theme` and `indexed` records
always become `'000000'`. -/
def applied_font_color : Option StoredColor → Option String
  | none => none
  | some (.rgb v) =>
    match v with
    | some s =>
      if s = "" then some "000000"
      else
        let t := pyStrip s
        if t = "" || !(removeFirstFF t.data).all isHexChar then some "000000"
        else some t
    | none => some "000000"
  | some (.theme _) => some "000000"
  | some (.indexed _) => some "000000"

/-! ### Font color correction (`fix_font_colors` of `script.py`) -/

/-- Per-cell step of `fix_font_colors`: an empty cell is skipped; a
non-empty cell gets a new font with the same name, size, bold, italic and
underline and color `'000000'`. -/
def fix_font_cell (c : Cell) : Cell :=
  match c.value with
  | none => c
  | some _ => { c with font := { c.font with color := some "000000" } }

/-- A sheet as the grid of cells `[1..max_row] × [1..max_col]` that
`fix_font_colors` scans, and a workbook as its named sheets. -/
abbrev SheetGrid := List (List Cell)

/-- A workbook: named sheet grids. -/
abbrev WorkbookGrid := List (String × SheetGrid)

/-- `fix_font_colors` applied to every cell of every sheet. -/
def fix_font_colors_wb (wb : WorkbookGrid) : WorkbookGrid :=
  wb.map (fun p => (p.1, p.2.map (List.map fix_font_cell)))

/-- Index of the last occurrence of `c` in `l`, or `-1` (Python
`str.rfind`). -/
def rfindIdx (c : Char) (l : List Char) : Int :=
  l.enum.foldl (fun a p => if p.2 = c then (p.1 : Int) else a) (-1)

/-- The position where `os.path.splitext` splits off the extension
(`l.length` when there is none): the last dot after the last path
separator, provided a non-dot character precedes it in the basename. -/
def splitextPos (l : List Char) : Nat :=
  let sep := rfindIdx '/' l
  let dot := rfindIdx '.' l
  if sep < dot ∧
      (List.range l.length).any
        (fun i => decide (sep < (i : Int)) && decide ((i : Int) < dot) &&
          !(l.getD i '.' = '.')) then
    dot.toNat
  else l.length

/-- The output filename of `fix_font_colors`:
`base_name + "_fixed" + ext`. -/
def fixed_output_name (p : String) : String :=
  let pos := splitextPos p.data
  String.mk (p.data.take pos ++ "_fixed".data ++ p.data.drop pos)

/-- The file store effect of `fix_font_colors`: load the workbook stored
under `file`, normalize its font colors, and save the result under the
suffixed output name, leaving every existing entry in place. -/
def fix_font_colors_store (store : List (String × WorkbookGrid))
    (file : String) : List (String × WorkbookGrid) :=
  match store.lookup file with
  | some wb => (fixed_output_name file, fix_font_colors_wb wb) :: store
  | none => store

/-! ### Formula cell routing during reconstruction (`recreate_workbooks`) -/

/-- What `recreate_workbooks` writes into a formula cell: a plain value, or
a live formula (the cell value is cleared first and the text is passed to
the library's formula property). -/
inductive CellWrite where
  | plainValue : String → CellWrite
  | installFormula : String → CellWrite
deriving DecidableEq

/-- The special-cased sheet names tested by `recreate_workbooks`. -/
def special_formula_sheets : List String :=
  ["MIS-Report", "Part I", "Part II", "Part III"]

/-- Detection of a raw numeric-index reference in the original stored
text: a `[1]`, `[2]` or `[3]` substring. -/
def has_indexed_ref (v : String) : Bool :=
  isSubstr "[1]".data v.data || isSubstr "[2]".data v.data ||
    isSubstr "[3]".data v.data

/-- The rewrite step of `recreate_workbooks` for a formula cell: the stored
text is rewritten only when a base path is configured. -/
def recreate_formula_value (base : String) (catalog : List (String × String))
    (value : String) : Except SubErr String :=
  if base ≠ "" then fix_external_references base catalog value else .ok value

/-- Python `text.startswith("=")`. -/
def startsWithEq (s : String) : Bool :=
  match s.data with
  | c :: _ => c = '='
  | [] => false

/-- Python `text[1:]`: drop the first character. -/
def dropFirst (s : String) : String := String.mk (s.data.drop 1)

/-- The formula-cell routing of `recreate_workbooks`: on one of the four
special sheets with a raw `[1]`/`[2]`/`[3]` substring in the original
stored text, the (possibly rewritten) text is written as a plain value;
otherwise the text is installed as a live formula, with the leading `=`
stripped when present, after clearing the cell value. -/
def recreate_formula_cell (base : String) (catalog : List (String × String))
    (sheet_name value : String) : Except SubErr CellWrite := do
  let formula_value ← recreate_formula_value base catalog value
  if (sheet_name = "MIS-Report" || sheet_name = "Part I" ||
      sheet_name = "Part II" || sheet_name = "Part III") &&
      has_indexed_ref value then
    pure (.plainValue formula_value)
  else if startsWithEq formula_value then
    pure (.installFormula (dropFirst formula_value))
  else
    pure (.installFormula formula_value)

/-! ### Concrete data used by the specification's examples -/

/-- The alias catalog of the spec's worked examples: one canonical entry
for `Deposits Data Lite.xlsx`. -/
def depositsCatalog : List (String × String) :=
  [("Deposits Data Lite.xlsx", "Deposits Data Lite.xlsx")]

/-- The spec's standard-dialect example input. -/
def c1_input : String := "'C:\\Old\\[Deposits Data Lite.xlsx]Sheet1'!A1:A5"

/-- The spec's standard-dialect example output. -/
def c1_output : String := "'C:\\New\\[Deposits Data Lite.xlsx]Sheet1'!A1:A5"

/-- A standard-dialect reference whose filename matches no catalog entry. -/
def c1_unmatched : String := "'C:\\Old\\[Unknown.xlsx]Sheet1'!A1:A5"

/-- A cell with red font, solid green fill and a thin blue border on all
four sides, as built by the formatting round-trip test. -/
def testFormattedCell : Cell :=
  { value := some "Combined Formatting"
    number_format := "General"
    font := { name := some "Calibri", size := some 14, bold := some true,
              italic := none, underline := none, color := some "FF0000" }
    fill := { fill_type := some "solid", start_color := some "00FF00" }
    border := { top := { style := some "thin", color := some "0000FF" }
                bottom := { style := some "thin", color := some "0000FF" }
                left := { style := some "thin", color := some "0000FF" }
                right := { style := some "thin", color := some "0000FF" } }
    alignment := { horizontal := some "center", vertical := some "center",
                   wrap_text := none } }

/-- A one-sheet, one-cell workbook used to witness the font-normalization
theorem. -/
def testWorkbook : WorkbookGrid := [("Sheet1", [[testFormattedCell]])]

/-! ## Theorems -/

/-- The executable substring test agrees with the declarative infix
relation on lists. -/
theorem isSubstr_iff_infix (p s : List Char) : isSubstr p s = true ↔ p <:+: s := by
  induction s with
  | nil => simp [isSubstr, List.isEmpty_iff]
  | cons c rest ih =>
    rw [isSubstr]
    simp [List.isPrefixOf_iff_prefix, ih, List.infix_cons_iff]

/-- C1: For the standard dialect, the rewrite fuzzy-matches the bracketed
filename against the alias catalog — case-insensitively, with spaces and
parentheses stripped, matching iff either cleaned side is a substring of
the other — and on a match produces `'<base>[<canonical>]<sheet>'!<range>`,
while an unmatched reference is returned unchanged; in particular, with
the `Deposits Data Lite.xlsx` catalog and base path `C:\New\`, the spec's
example input rewrites to the expected output and the unmatched example
passes through `fix_external_references` unchanged. -/
theorem standard_dialect_rewrite :
    (∀ (k f : String), fuzzyCond k.data f.data = true ↔
      (cleanChars f.data <:+: cleanChars k.data ∨
        cleanChars k.data <:+: cleanChars f.data)) ∧
    (∀ (base : String) (catalog : List (String × String)) (m : List Char)
        (caps : Caps) (fp fn sh cr : List Char) (t : String),
      caps.lookup 1 = some fp → caps.lookup 2 = some fn →
      caps.lookup 3 = some sh → caps.lookup 4 = some cr →
      fuzzyLookup catalog fn = some t →
      replace_standard_match base catalog m caps =
        .ok (standardForm base t sh cr)) ∧
    (∀ (base : String) (catalog : List (String × String)) (m : List Char)
        (caps : Caps) (fp fn sh cr : List Char),
      caps.lookup 1 = some fp → caps.lookup 2 = some fn →
      caps.lookup 3 = some sh → caps.lookup 4 = some cr →
      fuzzyLookup catalog fn = none →
      replace_standard_match base catalog m caps = .ok m) ∧
    fix_external_references "C:\\New\\" depositsCatalog c1_input = .ok c1_output ∧
    fix_external_references "C:\\New\\" depositsCatalog c1_unmatched =
      .ok c1_unmatched := by
  refine ⟨?_, ?_, ?_, rfl, rfl⟩
  · intro k f
    simp [fuzzyCond, isSubstr_iff_infix]
  · intro base catalog m caps fp fn sh cr t h1 h2 h3 h4 h5
    simp [replace_standard_match, getGroup, h1, h2, h3, h4, h5, Bind.bind,
      Except.bind]
  · intro base catalog m caps fp fn sh cr h1 h2 h3 h4 h5
    simp [replace_standard_match, getGroup, h1, h2, h3, h4, h5, Bind.bind,
      Except.bind]

/-- Witness for C1 at concrete inputs: the fuzzy-match characterization,
one matched replacement and one unmatched pass-through. -/
theorem standard_dialect_rewrite_witness :
    (fuzzyCond "Deposits Data Lite.xlsx".data "deposits data lite".data = true ↔
      (cleanChars "deposits data lite".data <:+:
          cleanChars "Deposits Data Lite.xlsx".data ∨
        cleanChars "Deposits Data Lite.xlsx".data <:+:
          cleanChars "deposits data lite".data)) ∧
    replace_standard_match "C:\\New\\" depositsCatalog "m".data
      [(1, "p".data), (2, "Deposits Data Lite.xlsx".data),
       (3, "Sheet1".data), (4, "A1:A5".data)] =
      .ok (standardForm "C:\\New\\" "Deposits Data Lite.xlsx"
        "Sheet1".data "A1:A5".data) ∧
    replace_standard_match "C:\\New\\" depositsCatalog "m".data
      [(1, "p".data), (2, "Unknown.xlsx".data),
       (3, "Sheet1".data), (4, "A1:A5".data)] = .ok "m".data :=
  ⟨standard_dialect_rewrite.1 "Deposits Data Lite.xlsx" "deposits data lite",
   standard_dialect_rewrite.2.1 "C:\\New\\" depositsCatalog "m".data
     _ _ _ _ _ _ rfl rfl rfl rfl rfl,
   standard_dialect_rewrite.2.2.1 "C:\\New\\" depositsCatalog "m".data
     _ _ _ _ _ rfl rfl rfl rfl rfl⟩

/-- C2: For the indexed dialect, the static index map sends `1` to
`Deposits Data Lite.xlsx`; a bracketed digit found in the map with a
non-empty base path rewrites to the standard dialect form, while an
unknown digit or an empty base path leaves the match unchanged (the
replacement consults only the static map, never the alias catalog); the
spec's example `[1]Deposits!L:L` rewrites end-to-end accordingly. -/
theorem indexed_dialect_rewrite :
    index_to_file.lookup "1" = some "Deposits Data Lite.xlsx" ∧
    (∀ (base : String) (m : List Char) (caps : Caps) (idx sh cr : List Char)
        (fn : String),
      caps.lookup 1 = some idx → caps.lookup 2 = some sh →
      caps.lookup 3 = some cr →
      index_to_file.lookup (String.mk idx) = some fn → base ≠ "" →
      replace_indexed_match base m caps = .ok (standardForm base fn sh cr)) ∧
    (∀ (base : String) (m : List Char) (caps : Caps) (idx sh cr : List Char),
      caps.lookup 1 = some idx → caps.lookup 2 = some sh →
      caps.lookup 3 = some cr →
      (index_to_file.lookup (String.mk idx) = none ∨ base = "") →
      replace_indexed_match base m caps = .ok m) ∧
    fix_external_references "C:\\New\\" depositsCatalog "[1]Deposits!L:L" =
      .ok "'C:\\New\\[Deposits Data Lite.xlsx]Deposits'!L:L" ∧
    fix_external_references "" depositsCatalog "[1]Deposits!L:L" =
      .ok "[1]Deposits!L:L" ∧
    fix_external_references "C:\\New\\" depositsCatalog "[4]Deposits!L:L" =
      .ok "[4]Deposits!L:L" := by
  refine ⟨rfl, ?_, ?_, rfl, rfl, rfl⟩
  · intro base m caps idx sh cr fn h1 h2 h3 h4 h5
    simp [replace_indexed_match, getGroup, h1, h2, h3, h4, h5, Bind.bind,
      Except.bind]
  · intro base m caps idx sh cr h1 h2 h3 h4
    rcases h4 with h4 | h4
    · simp [replace_indexed_match, getGroup, h1, h2, h3, h4, Bind.bind,
        Except.bind]
    · simp [replace_indexed_match, getGroup, h1, h2, h3, h4, Bind.bind,
        Except.bind]
      cases index_to_file.lookup (String.mk idx) <;> rfl

/-- Witness for C2 at concrete inputs: a known index with a base path
rewrites, and an empty base path preserves the match. -/
theorem indexed_dialect_rewrite_witness :
    replace_indexed_match "B\\" "m".data
      [(1, "1".data), (2, "Deposits".data), (3, "L:L".data)] =
      .ok (standardForm "B\\" "Deposits Data Lite.xlsx" "Deposits".data
        "L:L".data) ∧
    replace_indexed_match "" "m".data
      [(1, "1".data), (2, "Deposits".data), (3, "L:L".data)] = .ok "m".data :=
  ⟨indexed_dialect_rewrite.2.1 "B\\" "m".data _ _ _ _ _ rfl rfl rfl rfl
     (by decide),
   indexed_dialect_rewrite.2.2.1 "" "m".data _ _ _ _ rfl rfl rfl (Or.inr rfl)⟩

/-- C3 (code bug): the loose-dialect replacement reads `match.group(3)`
although `sheet_reference_pattern` captures only groups 1 and 2, so
`fix_external_references` raises on every input whose text matches the
loose pattern instead of rewriting or passing it through: on
`=Deposits Data Lite.xlsx extra` with a configured base path and a
matching catalog the rewrite errors, and the successful pattern match
indeed has captures for groups 1 and 2 but none for group 3. -/
theorem loose_dialect_group_access_raises :
    fix_external_references "C:\\New\\" depositsCatalog
      "=Deposits Data Lite.xlsx extra" = .error .noSuchGroup ∧
    ((tryMatch sheet_reference_pattern "Deposits Data Lite.xlsx extra".data).map
        (fun r => r.2.lookup 3)) = some none ∧
    ((tryMatch sheet_reference_pattern "Deposits Data Lite.xlsx extra".data).map
        (fun r => r.2.lookup 1)) = some (some "Deposits Data Lite.xlsx".data) :=
  ⟨rfl, rfl, rfl⟩

/-- C4 counterexample: with an empty base path, `fix_external_references`
still rewrites a catalog-matched standard reference, replacing the stored
path prefix by the empty base, so the output differs from the input. -/
theorem empty_base_rewrite_changes_input :
    fix_external_references "" depositsCatalog c1_input =
      .ok "'[Deposits Data Lite.xlsx]Sheet1'!A1:A5" ∧
    "'[Deposits Data Lite.xlsx]Sheet1'!A1:A5" ≠ c1_input :=
  ⟨rfl, by decide⟩

/-- C4 amended: non-string inputs and the empty string pass through
`fix_external_references` unchanged, and the reconstruction call site
invokes the rewriter only when a base path is configured, so the
pipeline-level rewrite step with an empty base path returns every stored
formula text unchanged. -/
theorem rewrite_noop_when_base_unset :
    (∀ (catalog : List (String × String)) (v : String),
      recreate_formula_value "" catalog v = .ok v) ∧
    (∀ (base : String) (catalog : List (String × String)),
      fix_external_references_val base catalog .pyNone = .ok .pyNone ∧
      fix_external_references_val base catalog .pyOther = .ok .pyOther ∧
      fix_external_references base catalog "" = .ok "") := by
  refine ⟨fun catalog v => ?_, fun base catalog => ⟨rfl, rfl, ?_⟩⟩
  · simp [recreate_formula_value]
  · simp [fix_external_references]

/-- Witness for C4's amended statement at concrete inputs. -/
theorem rewrite_noop_when_base_unset_witness :
    recreate_formula_value "" depositsCatalog c1_input = .ok c1_input ∧
    fix_external_references_val "C:\\New\\" depositsCatalog .pyNone =
      .ok .pyNone :=
  ⟨rewrite_noop_when_base_unset.1 depositsCatalog c1_input,
   (rewrite_noop_when_base_unset.2 "C:\\New\\" depositsCatalog).1⟩

/-- C5: Reconstruction coerces stored non-formula text with the exact
precedence case-insensitive `true`/`false` to boolean, else all-digit to
integer, else float-parseable to float, else kept as the identical
string; concretely `007` becomes integer `7`, `TRUE` becomes boolean
true and `3.50` becomes float `3.5`. -/
theorem stored_text_coercion :
    (∀ v : String, String.mk (pyLower v.data) = "true" →
      coerce_stored_value v = .boolean true) ∧
    (∀ v : String, String.mk (pyLower v.data) = "false" →
      coerce_stored_value v = .boolean false) ∧
    (∀ v : String, String.mk (pyLower v.data) ≠ "true" →
      String.mk (pyLower v.data) ≠ "false" → pyIsDigit v = true →
      coerce_stored_value v = .int (digitsVal v.data)) ∧
    (∀ (v : String) (f : PyFloat), String.mk (pyLower v.data) ≠ "true" →
      String.mk (pyLower v.data) ≠ "false" → pyIsDigit v = false →
      pyFloatOfString? v = some f → coerce_stored_value v = .float f) ∧
    (∀ v : String, String.mk (pyLower v.data) ≠ "true" →
      String.mk (pyLower v.data) ≠ "false" → pyIsDigit v = false →
      pyFloatOfString? v = none → coerce_stored_value v = .str v) ∧
    coerce_stored_value "007" = .int 7 ∧
    coerce_stored_value "TRUE" = .boolean true ∧
    coerce_stored_value "3.50" = .float (.finite (7 / 2)) := by
  have hq : (7 / 2 : ℚ) = mkRat 350 100 := by
    rw [Rat.mkRat_eq_div]; norm_num
  refine ⟨?_, ?_, ?_, ?_, ?_, by decide, by decide, by rw [hq]; rfl⟩
  · intro v h; simp [coerce_stored_value, h]
  · intro v h
    simp [coerce_stored_value, h]
  · intro v h1 h2 h3
    simp [coerce_stored_value, h1, h2, h3]
  · intro v f h1 h2 h3 h4
    simp [coerce_stored_value, h1, h2, h3, h4]
  · intro v h1 h2 h3 h4
    simp [coerce_stored_value, h1, h2, h3, h4]

/-- Witness for C5 at concrete inputs: a non-coercible text round-trips
identically and `FALSE` becomes boolean false. -/
theorem stored_text_coercion_witness :
    coerce_stored_value "ConcatText" = .str "ConcatText" ∧
    coerce_stored_value "FALSE" = .boolean false :=
  ⟨stored_text_coercion.2.2.2.2.1 "ConcatText" (by decide) (by decide)
     (by decide) (by rfl),
   stored_text_coercion.2.1 "FALSE" (by decide)⟩

/-- C6: For every cell with font color `FF0000`, a solid fill with color
`00FF00`, and a thin blue (`0000FF`) border on all four sides, applying
`apply_formatting (extract_cell_formatting cell)` to a fresh cell yields
font, fill and border color strings identical to the source after ARGB
normalization (`FFFF0000`, `FF00FF00`, `FF0000FF`) and the same `thin`
style on all four border sides. -/
theorem formatting_roundtrip_colors :
    ∀ c : Cell,
      c.font.color = some "FF0000" →
      c.fill.fill_type = some "solid" →
      c.fill.start_color = some "00FF00" →
      c.border.top.style = some "thin" → c.border.top.color = some "0000FF" →
      c.border.bottom.style = some "thin" →
      c.border.bottom.color = some "0000FF" →
      c.border.left.style = some "thin" → c.border.left.color = some "0000FF" →
      c.border.right.style = some "thin" →
      c.border.right.color = some "0000FF" →
      ((apply_formatting (extract_cell_formatting c) freshCell).font.color =
          ensure_argb_format "FF0000" ∧
        (apply_formatting (extract_cell_formatting c) freshCell).font.color =
          some "FFFF0000") ∧
      ((apply_formatting (extract_cell_formatting c) freshCell).fill.start_color =
          ensure_argb_format "00FF00" ∧
        (apply_formatting (extract_cell_formatting c) freshCell).fill.start_color =
          some "FF00FF00") ∧
      ((apply_formatting (extract_cell_formatting c) freshCell).border.top =
          { style := some "thin", color := some "FF0000FF" } ∧
        (apply_formatting (extract_cell_formatting c) freshCell).border.bottom =
          { style := some "thin", color := some "FF0000FF" } ∧
        (apply_formatting (extract_cell_formatting c) freshCell).border.left =
          { style := some "thin", color := some "FF0000FF" } ∧
        (apply_formatting (extract_cell_formatting c) freshCell).border.right =
          { style := some "thin", color := some "FF0000FF" } ∧
        some "FF0000FF" = ensure_argb_format "0000FF") := by
  intro c h1 h2 h3 h4 h5 h6 h7 h8 h9 h10 h11
  refine ⟨⟨?_, ?_⟩, ⟨?_, ?_⟩, ?_, ?_, ?_, ?_, by decide⟩ <;>
    simp [apply_formatting, extract_cell_formatting, extract_side, apply_side,
      h1, h2, h3, h4, h5, h6, h7, h8, h9, h10, h11, ensure_argb_format,
      isHexChar, isAsciiDigit]

/-- Witness for C6 at the concrete test cell with red font, green solid
fill and a thin blue border. -/
theorem formatting_roundtrip_colors_witness :
    (apply_formatting (extract_cell_formatting testFormattedCell)
        freshCell).font.color = some "FFFF0000" ∧
    (apply_formatting (extract_cell_formatting testFormattedCell)
        freshCell).fill.start_color = some "FF00FF00" ∧
    (apply_formatting (extract_cell_formatting testFormattedCell)
        freshCell).border.top =
      { style := some "thin", color := some "FF0000FF" } :=
  ⟨(formatting_roundtrip_colors testFormattedCell rfl rfl rfl rfl rfl rfl rfl
      rfl rfl rfl rfl).1.2,
   (formatting_roundtrip_colors testFormattedCell rfl rfl rfl rfl rfl rfl rfl
      rfl rfl rfl rfl).2.1.2,
   (formatting_roundtrip_colors testFormattedCell rfl rfl rfl rfl rfl rfl rfl
      rfl rfl rfl rfl).2.2.1⟩

/-- C7 counterexample: `ZZ123456` has invalid (non-hex) characters outside
any alpha prefix, yet `ensure_argb_format` maps it to `FF123456`, not to
opaque black `FF000000` (the invalid characters are stripped first); and
the script-side fallback for an invalid rgb value is the 6-digit black
`000000`, not `FF000000`. -/
theorem invalid_hex_chars_not_black :
    ensure_argb_format "ZZ123456" = some "FF123456" ∧
    some "FF123456" ≠ some ("FF000000" : String) ∧
    applied_font_color (some (.rgb (some "ZZ123456"))) = some "000000" ∧
    some "000000" ≠ some ("FF000000" : String) :=
  ⟨rfl, by decide, rfl, by decide⟩

/-- C7 amended: `ensure_argb_format` strips non-hex characters first, then
prepends `FF` to a 6-hex-digit string, returns an 8-hex-digit string
as-is, and falls back to `FF000000` exactly when the stripped hex content
has any other length; separately, `apply_formatting` in `script.py` maps
an rgb font color whose characters (after removing one `FF`) are not all
hex to the 6-digit black `000000`. -/
theorem argb_normalization :
    (∀ s : String, s.data.length = 6 → s.data.all isHexChar = true →
      ensure_argb_format s = some (String.mk ('F' :: 'F' :: s.data))) ∧
    (∀ s : String, s.data.length = 8 → s.data.all isHexChar = true →
      ensure_argb_format s = some s) ∧
    (∀ s : String, s ≠ "" → (s.data.filter isHexChar).length ≠ 6 →
      (s.data.filter isHexChar).length ≠ 8 →
      ensure_argb_format s = some "FF000000") ∧
    (∀ s : String, (removeFirstFF (pyStrip s).data).all isHexChar = false →
      applied_font_color (some (.rgb (some s))) = some "000000") := by
  refine ⟨?_, ?_, ?_, ?_⟩
  · intro s h1 h2
    have hne : s ≠ "" := by
      intro h; subst h; simp at h1
    have hf : s.data.filter isHexChar = s.data := List.filter_eq_self.mpr
      (by intro c hc; exact List.all_eq_true.mp h2 c hc)
    simp [ensure_argb_format, hne, hf, h1]
  · intro s h1 h2
    have hne : s ≠ "" := by
      intro h; subst h; simp at h1
    have hf : s.data.filter isHexChar = s.data := List.filter_eq_self.mpr
      (by intro c hc; exact List.all_eq_true.mp h2 c hc)
    simp [ensure_argb_format, hne, hf, h1]
  · intro s h1 h2 h3
    simp [ensure_argb_format, h1, h2, h3]
  · intro s h
    by_cases hs : s = ""
    · simp [applied_font_color, hs]
    · by_cases ht : pyStrip s = ""
      · simp [applied_font_color, hs, ht]
      · simp [applied_font_color, hs, ht, h]

/-- Witness for C7's amended statement at concrete colors. -/
theorem argb_normalization_witness :
    ensure_argb_format "FF0000" = some "FFFF0000" ∧
    ensure_argb_format "00FF00FF" = some "00FF00FF" ∧
    ensure_argb_format "12345" = some "FF000000" ∧
    applied_font_color (some (.rgb (some "red"))) = some "000000" :=
  ⟨argb_normalization.1 "FF0000" (by decide) (by decide),
   argb_normalization.2.1 "00FF00FF" (by decide) (by decide),
   argb_normalization.2.2.1 "12345" (by decide) (by decide) (by decide),
   argb_normalization.2.2.2 "red" (by decide)⟩

/-- C8: A stored formula cell on one of the special report sheets whose
original, pre-rewrite text contains `[1]`, `[2]` or `[3]` is written as a
plain value (the rewritten text when a base path is set, else the stored
text); every other formula cell whose text starts with `=` has its value
cleared and the text minus the leading `=` installed as a live formula
(and text without a leading `=` is installed verbatim). -/
theorem formula_cell_routing :
    ∀ (base : String) (catalog : List (String × String)) (sheet v fv : String),
      recreate_formula_value base catalog v = .ok fv →
      ((sheet ∈ special_formula_sheets ∧ has_indexed_ref v = true →
        recreate_formula_cell base catalog sheet v = .ok (.plainValue fv)) ∧
       (¬(sheet ∈ special_formula_sheets ∧ has_indexed_ref v = true) →
        startsWithEq fv = true →
        recreate_formula_cell base catalog sheet v =
          .ok (.installFormula (dropFirst fv))) ∧
       (¬(sheet ∈ special_formula_sheets ∧ has_indexed_ref v = true) →
        startsWithEq fv = false →
        recreate_formula_cell base catalog sheet v =
          .ok (.installFormula fv)) ∧
       (base = "" → fv = v)) := by
  intro base catalog sheet v fv h
  have hmem : sheet ∈ special_formula_sheets ↔
      (sheet = "MIS-Report" ∨ sheet = "Part I" ∨ sheet = "Part II" ∨
        sheet = "Part III") := by
    simp [special_formula_sheets]
  have hbfalse : ¬(sheet ∈ special_formula_sheets ∧ has_indexed_ref v = true) →
      ((sheet = "MIS-Report" || sheet = "Part I" ||
        sheet = "Part II" || sheet = "Part III") &&
        has_indexed_ref v) = false := by
    intro hns
    cases hcase : has_indexed_ref v with
    | false => simp [hcase]
    | true =>
      have hor : ¬(sheet = "MIS-Report" ∨ sheet = "Part I" ∨
          sheet = "Part II" ∨ sheet = "Part III") :=
        fun hor => hns ⟨hmem.mpr hor, hcase⟩
      push_neg at hor
      simp [hcase, hor.1, hor.2.1, hor.2.2.1, hor.2.2.2]
  refine ⟨?_, ?_, ?_, ?_⟩
  · intro ⟨hs, hi⟩
    rcases hmem.mp hs with h1 | h1 | h1 | h1 <;>
      simp [recreate_formula_cell, h, h1, hi, Bind.bind, Except.bind,
        Pure.pure, Except.pure]
  · intro hns hsw
    simp [recreate_formula_cell, h, hbfalse hns, hsw, Bind.bind, Except.bind,
      Pure.pure, Except.pure]
  · intro hns hsw
    simp [recreate_formula_cell, h, hbfalse hns, hsw, Bind.bind, Except.bind,
      Pure.pure, Except.pure]
  · intro hb
    subst hb
    simp [recreate_formula_value] at h
    exact h.symm

/-- Witness for C8 at concrete cells: an indexed-reference formula on a
special sheet becomes a plain value, an ordinary formula is installed
with its leading `=` stripped. -/
theorem formula_cell_routing_witness :
    recreate_formula_cell "" [] "Part I" "=[1]Deposits!L:L" =
      .ok (.plainValue "=[1]Deposits!L:L") ∧
    recreate_formula_cell "" [] "Data" "=SUM(A1:A5)" =
      .ok (.installFormula "SUM(A1:A5)") :=
  ⟨(formula_cell_routing "" [] "Part I" "=[1]Deposits!L:L" "=[1]Deposits!L:L"
      rfl).1 ⟨by decide, by decide⟩,
   (formula_cell_routing "" [] "Data" "=SUM(A1:A5)" "=SUM(A1:A5)" rfl).2.1
     (by intro ⟨hs, _⟩; simp [special_formula_sheets] at hs) (by decide)⟩

/-- The suffixed output filename of `fix_font_colors` never equals the
input filename. -/
theorem fixed_output_name_ne (p : String) : fixed_output_name p ≠ p := by
  intro h
  have hd : (fixed_output_name p).data = p.data := congrArg String.data h
  have hl : (fixed_output_name p).data.length = p.data.length :=
    congrArg List.length hd
  simp [fixed_output_name, List.length_append, List.length_take,
    List.length_drop] at hl
  omega

/-- C9: After font normalization every non-empty cell's font color is
black while that cell's other font attributes and every other formatting
category (fill, border, alignment, number format) and its value are
unchanged; empty cells are untouched; sheet names and grid positions are
preserved; and the result is saved under a new `_fixed`-suffixed
filename, leaving the stored input workbook unmodified. -/
theorem font_normalization_frame :
    (∀ c : Cell, c.value ≠ none →
      (fix_font_cell c).font.color = some "000000" ∧
      (fix_font_cell c).font.name = c.font.name ∧
      (fix_font_cell c).font.size = c.font.size ∧
      (fix_font_cell c).font.bold = c.font.bold ∧
      (fix_font_cell c).font.italic = c.font.italic ∧
      (fix_font_cell c).font.underline = c.font.underline ∧
      (fix_font_cell c).fill = c.fill ∧
      (fix_font_cell c).border = c.border ∧
      (fix_font_cell c).alignment = c.alignment ∧
      (fix_font_cell c).number_format = c.number_format ∧
      (fix_font_cell c).value = c.value) ∧
    (∀ c : Cell, c.value = none → fix_font_cell c = c) ∧
    (∀ wb : WorkbookGrid, (fix_font_colors_wb wb).map Prod.fst =
      wb.map Prod.fst) ∧
    (∀ (wb : WorkbookGrid) (name : String) (grid : SheetGrid),
      (name, grid) ∈ wb →
      (name, grid.map (List.map fix_font_cell)) ∈ fix_font_colors_wb wb) ∧
    (∀ (store : List (String × WorkbookGrid)) (file : String)
        (wb : WorkbookGrid),
      store.lookup file = some wb →
      fix_font_colors_store store file =
        (fixed_output_name file, fix_font_colors_wb wb) :: store ∧
      fixed_output_name file ≠ file ∧
      (fix_font_colors_store store file).lookup file = some wb) := by
  refine ⟨?_, ?_, ?_, ?_, ?_⟩
  · intro c hc
    match hv : c.value with
    | none => exact absurd hv hc
    | some s =>
      simp [fix_font_cell, hv]
  · intro c hc
    simp [fix_font_cell, hc]
  · intro wb
    simp [fix_font_colors_wb]
  · intro wb name grid hmem
    simp only [fix_font_colors_wb, List.mem_map]
    exact ⟨(name, grid), hmem, rfl⟩
  · intro store file wb h
    have hne := fixed_output_name_ne file
    refine ⟨by simp [fix_font_colors_store, h], hne, ?_⟩
    simp [fix_font_colors_store, h, List.lookup]
    have : (file == fixed_output_name file) = false := by
      simp [hne.symm]
    simp [this, h]

/-- Witness for C9 at a concrete one-cell workbook and store. -/
theorem font_normalization_frame_witness :
    (fix_font_cell testFormattedCell).font.color = some "000000" ∧
    (fix_font_cell testFormattedCell).fill = testFormattedCell.fill ∧
    (fix_font_colors_store [("wb.xlsx", testWorkbook)] "wb.xlsx").lookup
      "wb.xlsx" = some testWorkbook :=
  ⟨((font_normalization_frame.1 testFormattedCell (by decide))).1,
   ((font_normalization_frame.1 testFormattedCell (by decide))).2.2.2.2.2.2.1,
   (font_normalization_frame.2.2.2.2 [("wb.xlsx", testWorkbook)] "wb.xlsx"
     testWorkbook rfl).2.2⟩

/-- C10: A stored font color tagged `theme` or `indexed` is applied at
reconstruction as black `000000`, discarding the stored value; any
applied font color other than `000000` can only come from an rgb-tagged
record and equals its stored (stripped) value. -/
theorem theme_indexed_font_colors_black :
    (∀ n : Int, applied_font_color (some (.theme n)) = some "000000") ∧
    (∀ n : Int, applied_font_color (some (.indexed n)) = some "000000") ∧
    (∀ (ci : StoredColor) (s : String),
      applied_font_color (some ci) = some s → s ≠ "000000" →
      ∃ v : String, ci = .rgb (some v) ∧ s = pyStrip v) := by
  refine ⟨fun n => rfl, fun n => rfl, ?_⟩
  intro ci s h hne
  match ci with
  | .theme n => simp [applied_font_color] at h; exact absurd h.symm hne
  | .indexed n => simp [applied_font_color] at h; exact absurd h.symm hne
  | .rgb none => simp [applied_font_color] at h; exact absurd h.symm hne
  | .rgb (some v) =>
    refine ⟨v, rfl, ?_⟩
    by_cases hv : v = ""
    · simp [applied_font_color, hv] at h
      exact absurd h.symm hne
    · by_cases ht : pyStrip v = ""
      · simp [applied_font_color, hv, ht] at h
        exact absurd h.symm hne
      · by_cases hh : (removeFirstFF (pyStrip v).data).all isHexChar
        · simp [applied_font_color, hv, ht, hh] at h
          exact h.symm
        · simp [applied_font_color, hv, ht, hh] at h
          exact absurd h.symm hne

/-- Witness for C10 at a concrete theme color and a concrete rgb color. -/
theorem theme_indexed_font_colors_black_witness :
    applied_font_color (some (.theme 4)) = some "000000" ∧
    (∃ v : String, StoredColor.rgb (some " FFAA00BB ") = .rgb (some v) ∧
      "FFAA00BB" = pyStrip v) :=
  ⟨theme_indexed_font_colors_black.1 4,
   theme_indexed_font_colors_black.2.2 (.rgb (some " FFAA00BB ")) "FFAA00BB"
     (by decide) (by decide)⟩

end ExcelDB
